import Mathlib

/-!
Verification of `src/bindingdb.py` (yipy0005/utils): a shallow embedding of the
BindingDB query utility — URL construction, response-mapping navigation,
CSV emission, and the CLI mode dispatch — together with theorems settling the
frozen claims about the program.

The program is a single Python file.  Values that flow through it are strings,
`Optional[float]` CLI arguments, and the nested mapping produced by
`xmltodict.parse`.  Each definition below mirrors one piece of the source;
CPython library behaviour that the source leans on (f-string rendering of
floats, `urllib.parse.quote`, `csv.writer`, `pathlib.Path.parent.absolute()`,
dict/str iteration and indexing) is modelled explicitly where it is used.
-/

/--
Model of a CPython `float` as it flows through this program.  The program
never does arithmetic on its floats; it only renders them into f-strings and
tests their truthiness, so the model records exactly the information that
determines CPython's `str()` of the value:

* `ofInt n` — a float holding the integral value `n` (for magnitudes below
  10^16, where CPython's shortest-repr rendering is the integer digits
  followed by `.0`, e.g. `str(100.0) = "100.0"`);
* `ofDigits neg ip frac` — a non-integral float whose shortest decimal repr
  is `ip.frac` with optional sign (e.g. `0.85`).

The CLI (`typed-argument-parser` with `Optional[float]` fields) parses every
supplied cutoff with `float(...)`, so an integral command-line cutoff such as
`--ic50_cutoff 100` becomes the float `100.0`.
-/
inductive PyFloat where
  | ofInt (n : Int)
  | ofDigits (neg : Bool) (ip : Nat) (frac : String)
deriving DecidableEq

/-- CPython's `str()` / f-string rendering of the modelled float. -/
def PyFloat.str : PyFloat → String
  | .ofInt n => toString n ++ ".0"
  | .ofDigits neg ip frac => (if neg then "-" else "") ++ toString ip ++ "." ++ frac

/-- CPython truthiness of a float: `0.0` is falsy, everything else truthy. -/
def PyFloat.truthy : PyFloat → Bool
  | .ofInt n => n != 0
  | .ofDigits _ _ _ => true

/-- UTF-8 encoding of a single character, as CPython's `str.encode("utf-8")`
performs it byte for byte before percent-encoding. -/
def utf8Bytes (c : Char) : List Nat :=
  let n := c.toNat
  if n < 0x80 then [n]
  else if n < 0x800 then [0xC0 + n / 0x40, 0x80 + n % 0x40]
  else if n < 0x10000 then
    [0xE0 + n / 0x1000, 0x80 + (n / 0x40) % 0x40, 0x80 + n % 0x40]
  else
    [0xF0 + n / 0x40000, 0x80 + (n / 0x1000) % 0x40, 0x80 + (n / 0x40) % 0x40,
      0x80 + n % 0x40]

/-- Upper-case hexadecimal digit, as used by `urllib.parse.quote`. -/
def hexUpper (n : Nat) : Char :=
  if n < 10 then Char.ofNat (48 + n) else Char.ofNat (55 + n)

/-- Bytes `urllib.parse.quote` leaves unescaped with its default `safe='/'`:
ASCII letters, digits, `_`, `.`, `-`, `~` (the always-safe set) plus `/`. -/
def quoteSafeByte (b : Nat) : Bool :=
  (65 ≤ b && b ≤ 90) || (97 ≤ b && b ≤ 122) || (48 ≤ b && b ≤ 57) ||
    b == 95 || b == 46 || b == 45 || b == 126 || b == 47

/-- Percent-encoding of one byte: kept verbatim when safe, otherwise `%XX`
with upper-case hex digits. -/
def pyQuoteByte (b : Nat) : String :=
  if quoteSafeByte b then String.singleton (Char.ofNat b)
  else String.singleton '%' ++ String.singleton (hexUpper (b / 16)) ++
    String.singleton (hexUpper (b % 16))

/-- Model of `urllib.parse.quote(s)` with its defaults (`safe='/'`,
`encoding='utf-8'`): UTF-8 encode the string, then percent-encode every
byte outside the safe set. -/
def pyQuote (s : String) : String :=
  String.join (((s.data.map utf8Bytes).flatten).map pyQuoteByte)

/-- URL built by `get_ligands_by_uniprot` (src/bindingdb.py lines 45-48):
the f-string
`"https://bindingdb.org/axis2/services/BDBService/getLigandsByUniprot?uniprot={uniprot};{ic50_cutoff}"`
(the two adjacent source literals concatenate at compile time).  The UniProt
identifier is interpolated raw; the cutoff through CPython float rendering. -/
def get_ligands_by_uniprot_url (uniprot : String) (ic50_cutoff : PyFloat) : String :=
  "https://bindingdb.org/axis2/services/BDBService/getLigandsByUniprot?uniprot=" ++
    uniprot ++ ";" ++ ic50_cutoff.str

/-- URL built by `get_target_by_compound` (src/bindingdb.py lines 95-98):
`"https://bindingdb.org/axis2/services/BDBService/getTargetByCompound?smiles={quote(smiles)}&cutoff={similarity_cutoff}"`. -/
def get_target_by_compound_url (smiles : String) (similarity_cutoff : PyFloat) : String :=
  "https://bindingdb.org/axis2/services/BDBService/getTargetByCompound?smiles=" ++
    pyQuote smiles ++ "&cutoff=" ++ similarity_cutoff.str

example : (PyFloat.ofInt 100).str = "100.0" := by decide
example : (PyFloat.ofDigits false 0 "85").str = "0.85" := by decide
example : pyQuote " " = "%20" := by decide
example : pyQuote "#" = "%23" := by decide
example : pyQuote "CCO" = "CCO" := by decide

/--
A value of the nested mapping produced by `xmltodict.parse` on the prettified
response markup: an element with children becomes a `dict` (key order =
document order), repeated sibling elements become a `list`, text content
becomes a `text` (a Python `str`), and an empty element becomes `null`
(Python `None`).
-/
inductive XVal where
  | text (s : String)
  | dict (entries : List (String × XVal))
  | list (items : List XVal)
  | null

/-- Python subscription `v[k]` with a string key `k`, as the source performs
on the transcoded mapping: a dict looks the key up (raising `KeyError` when
absent); subscribing a `str`, a `list` or `None` with a string key raises a
`TypeError`.  A raised exception is modelled as `Except.error` with the
exception text. -/
def XVal.getItem : XVal → String → Except String XVal
  | .dict es, k =>
      match es.find? (fun kv => kv.1 == k) with
      | some kv => .ok kv.2
      | none => .error ("KeyError: " ++ k)
  | .text _, _ => .error "TypeError: string indices must be integers"
  | .list _, _ => .error "TypeError: list indices must be integers or slices, not str"
  | .null, _ => .error "TypeError: NoneType object is not subscriptable"

/-- The chained subscription `my_dict[k1][k2]...[kn]`; the first failing hop
raises. -/
def navigate (v : XVal) (path : List String) : Except String XVal :=
  path.foldlM XVal.getItem v

/-- Whether the chained subscription succeeds. -/
def navOk (v : XVal) (path : List String) : Bool :=
  match navigate v path with
  | .ok _ => true
  | .error _ => false

/-- The fixed navigation path of the target-search branch
(src/bindingdb.py lines 59-61). -/
def ligandPath : List String :=
  ["html", "body", "bdb:getligandsbyuniprotresponse", "bdb:affinities"]

/-- The fixed navigation path of the compound-search branch
(src/bindingdb.py lines 115-117). -/
def targetPath : List String :=
  ["html", "body", "bdb:gettargetbycompoundresponse", "bdb:affinities"]

/-- Python iteration `for x in v`: a list yields its items, a dict yields its
KEYS (as strings), a `str` yields its characters as one-character strings,
and iterating `None` raises a `TypeError`. -/
def pyIterE : XVal → Except String (List XVal)
  | .list xs => .ok xs
  | .dict es => .ok (es.map (fun kv => XVal.text kv.1))
  | .text s => .ok (s.data.map (fun ch => XVal.text (String.singleton ch)))
  | .null => .error "TypeError: NoneType object is not iterable"

/-- CPython `repr()` of a transcoded value, used by `str()` on the container
cases (`repr` of a `str` wraps it in quotes; `OrderedDict` and `list` render
recursively).  Quote-escaping inside string reprs is not modelled — the
pipeline applies `pyStr`, not `pyRepr`, to the text values it writes. -/
def XVal.pyRepr : XVal → String
  | .text s => "'" ++ s ++ "'"
  | .null => "None"
  | .dict es => "OrderedDict([" ++
      String.intercalate ", "
        (es.attach.map (fun p => "('" ++ p.1.1 ++ "', " ++ p.1.2.pyRepr ++ ")")) ++
      "])"
  | .list xs => "[" ++
      String.intercalate ", " (xs.attach.map (fun p => p.1.pyRepr)) ++ "]"
termination_by v => sizeOf v
decreasing_by
· have h := List.sizeOf_lt_of_mem p.2
  obtain ⟨⟨k, v⟩, hm⟩ := p
  simp only [XVal.dict.sizeOf_spec, Prod.mk.sizeOf_spec] at h ⊢
  omega
· have h := List.sizeOf_lt_of_mem p.2
  simp only [XVal.list.sizeOf_spec] at h ⊢
  omega

/-- CPython `str()` of a transcoded value, as applied by `csv.writerow` and by
f-string interpolation to each cell: a `str` passes through verbatim, `None`
renders as `None`, containers render through their repr. -/
def XVal.pyStr : XVal → String
  | .text s => s
  | v => v.pyRepr

/-- Whether `csv.writer` (default dialect, QUOTE_MINIMAL) must quote a field:
it contains the delimiter, the quote character, or a line-terminator
character. -/
def csvNeedsQuote (s : String) : Bool :=
  s.data.any (fun c => c == ',' || c == '"' || c == '\r' || c == '\n')

/-- One field as `csv.writer` renders it: verbatim unless quoting is needed,
in which case it is wrapped in double quotes with embedded quotes doubled. -/
def csvFieldRender (s : String) : String :=
  if csvNeedsQuote s then
    "\"" ++ String.join (s.data.map (fun c =>
      if c == '"' then "\"\"" else String.singleton c)) ++ "\""
  else s

/-- One row as `csv.writer.writerow` renders it: comma-joined fields plus the
default `\r\n` terminator. -/
def csvRowRender (row : List String) : String :=
  String.intercalate "," (row.map csvFieldRender) ++ "\r\n"

/-- The byte content of the emitted file, given the rows written to it. -/
def csvRender (rows : List (List String)) : String :=
  String.join (rows.map csvRowRender)

/-- Header row of the target-search CSV (src/bindingdb.py line 55). -/
def ligandHeader : List String := ["SMILES", "Affinity Type", "Affinity (nM)"]

/-- Header row of the compound-search CSV (src/bindingdb.py lines 107-112). -/
def targetHeader : List String :=
  ["Target [Species]", "SMILES (Tanimoto Similarity)", "Affinity Type", "Affinity (nM)"]

/-- The row the target-search loop body builds for one iteration variable
`ligand` (src/bindingdb.py lines 62-66): three subscriptions, each of which
may raise, then the cell conversions `csv.writerow` applies. -/
def ligandRow (ligand : XVal) : Except String (List String) := do
  let s ← ligand.getItem "bdb:smiles"
  let t ← ligand.getItem "bdb:affinity_type"
  let a ← ligand.getItem "bdb:affinity"
  pure [s.pyStr, t.pyStr, a.pyStr]

/-- The row the compound-search loop body builds for one iteration variable
`target` (src/bindingdb.py lines 118-123): the two f-string cells and the two
raw cells, with subscriptions in source order. -/
def targetRow (target : XVal) : Except String (List String) := do
  let tg ← target.getItem "bdb:target"
  let sp ← target.getItem "bdb:species"
  let sm ← target.getItem "bdb:smiles"
  let tn ← target.getItem "bdb:tanimoto"
  let ty ← target.getItem "bdb:affinity_type"
  let af ← target.getItem "bdb:affinity"
  pure [tg.pyStr ++ " [" ++ sp.pyStr ++ "]", sm.pyStr ++ " (" ++ tn.pyStr ++ ")",
    ty.pyStr, af.pyStr]

/-- The `for` loop of either branch: rows written so far are kept when a later
iteration raises (the file already contains them); the second component is
the exception, if one was raised. -/
def emitLoop (rowOf : XVal → Except String (List String)) :
    List XVal → List (List String) × Option String
  | [] => ([], none)
  | x :: xs =>
      match rowOf x with
      | .error e => ([], some e)
      | .ok r =>
          let p := emitLoop rowOf xs
          (r :: p.1, p.2)

/-- Everything `get_ligands_by_uniprot` writes into the CSV file, given the
transcoded response mapping (src/bindingdb.py lines 54-68): the header row is
written first, then the fixed path is navigated and iterated; an exception at
any point leaves the rows written so far in the file and propagates (second
component). -/
def get_ligands_by_uniprot_emit (my_dict : XVal) :
    List (List String) × Option String :=
  match navigate my_dict ligandPath with
  | .error e => ([ligandHeader], some e)
  | .ok aff =>
      match pyIterE aff with
      | .error e => ([ligandHeader], some e)
      | .ok items =>
          let p := emitLoop ligandRow items
          (ligandHeader :: p.1, p.2)

/-- Everything `get_target_by_compound` writes into the CSV file, given the
transcoded response mapping (src/bindingdb.py lines 104-125). -/
def get_target_by_compound_emit (my_dict : XVal) :
    List (List String) × Option String :=
  match navigate my_dict targetPath with
  | .error e => ([targetHeader], some e)
  | .ok aff =>
      match pyIterE aff with
      | .error e => ([targetHeader], some e)
      | .ok items =>
          let p := emitLoop targetRow items
          (targetHeader :: p.1, p.2)

/-- Splitting a character list at every occurrence of a separator (structural
recursion, so it evaluates inside the kernel). -/
def splitOnChar (sep : Char) : List Char → List (List Char)
  | [] => [[]]
  | c :: rest =>
      if c == sep then [] :: splitOnChar sep rest
      else
        match splitOnChar sep rest with
        | [] => [[c]]
        | g :: gs => (c :: g) :: gs

/-- `pathlib.PurePath.parent` of a relative path written as a string: the
components before the last `/`, or `.` (modelled as `none`) when there is no
directory part.  (The program only ever applies this to relative file names;
repeated separators do not occur in them.) -/
def pathParent (p : String) : Option String :=
  let parts := splitOnChar '/' p.data
  if parts.length ≤ 1 then none
  else some (String.intercalate "/" (parts.dropLast.map String.mk))

/-- `str(Path(p).parent.absolute())` for a relative `p` and current working
directory `cwd`: `Path.absolute()` prefixes the cwd, and the parent `.`
collapses to the cwd itself. -/
def parentAbsolute (cwd p : String) : String :=
  match pathParent p with
  | none => cwd
  | some par => cwd ++ "/" ++ par

deriving instance DecidableEq for Except

/-- Result of one query-function call past the HTTP request: the URL it
fetched, the (cwd-relative) name of the file it opened, the rows it wrote
into that file, and either the returned confirmation message or the
uncaught exception text. -/
structure PipeResult where
  url : String
  fileName : String
  fileRows : List (List String)
  ret : Except String String
deriving DecidableEq

/-- `get_ligands_by_uniprot(uniprot, ic50_cutoff)` (src/bindingdb.py lines
27-74), parametrised by the current working directory `cwd`, the module-level
date string `TODAY` (`today`), and the transcoded response mapping
`my_dict`.  The confirmation message interpolates
`Path(fname).parent.absolute()` followed by `/` and the file name again. -/
def get_ligands_by_uniprot_run (cwd today uniprot : String) (ic50_cutoff : PyFloat)
    (my_dict : XVal) : PipeResult :=
  let fname := today ++ "_" ++ uniprot ++ "_" ++ ic50_cutoff.str ++ "nM.csv"
  let p := get_ligands_by_uniprot_emit my_dict
  ⟨get_ligands_by_uniprot_url uniprot ic50_cutoff, fname, p.1,
    match p.2 with
    | some e => .error e
    | none => .ok ("Results have been saved to " ++ parentAbsolute cwd fname ++
        "/" ++ fname ++ "!")⟩

/-- `get_target_by_compound(smiles, similarity_cutoff)` (src/bindingdb.py
lines 77-131).  Note the confirmation message derives its directory part from
`Path(f"TODAY_smiles_cutoffnM.csv").parent.absolute()` — a file name built
from the SMILES string, which is not the file the function opened — and then
appends `/` and the actually written `targetSearchByCpd` file name. -/
def get_target_by_compound_run (cwd today smiles : String) (similarity_cutoff : PyFloat)
    (my_dict : XVal) : PipeResult :=
  let fname := today ++ "_targetSearchByCpd_" ++ similarity_cutoff.str ++ "nM.csv"
  let p := get_target_by_compound_emit my_dict
  ⟨get_target_by_compound_url smiles similarity_cutoff, fname, p.1,
    match p.2 with
    | some e => .error e
    | none => .ok ("Results have been saved to " ++
        parentAbsolute cwd (today ++ "_" ++ smiles ++ "_" ++ similarity_cutoff.str ++ "nM.csv") ++
        "/" ++ fname ++ "!")⟩

/-- How a process invocation ends: normal termination, or an uncaught
exception (which CPython reports with a traceback and a non-zero exit
status). -/
inductive PExit where
  | success
  | fatal (msg : String)
deriving DecidableEq

/-- Whether the invocation died on an uncaught exception. -/
def PExit.isFatal : PExit → Bool
  | .success => false
  | .fatal _ => true

/-- The observable effects of one invocation: HTTP GET requests issued, files
written (name and rows), lines printed to stdout, and how the process
exited. -/
structure Effects where
  httpRequests : List String
  fileWrites : List (String × List (List String))
  stdout : List String
  exit : PExit
deriving DecidableEq

/-- Effects of `print(<query function call>)` in `main`: the request is
issued and the file written in either case; the confirmation is printed only
when the call returns, and an exception propagates out of `main` uncaught. -/
def effectsOf (p : PipeResult) : Effects :=
  match p.ret with
  | .ok msg => ⟨[p.url], [(p.fileName, p.fileRows)], [msg], .success⟩
  | .error e => ⟨[p.url], [(p.fileName, p.fileRows)], [], .fatal e⟩

/-- CPython truthiness of an `Optional[str]` CLI argument: `None` and the
empty string are falsy. -/
def truthyStr : Option String → Bool
  | none => false
  | some s => !s.isEmpty

/-- CPython truthiness of an `Optional[float]` CLI argument: `None` and
`0.0` are falsy. -/
def truthyFloat : Option PyFloat → Bool
  | none => false
  | some f => f.truthy

/-- `main(uniprot, ic50_cutoff, smiles, similarity_cutoff)` (src/bindingdb.py
lines 134-143): `if uniprot and ic50_cutoff: print(get_ligands_by_uniprot(...))
elif smiles and similarity_cutoff: print(get_target_by_compound(...))` — and
no `else` branch.  `transcoded` stands for the transcoding of whatever the
upstream service returns to the branch that runs. -/
def bindingdb_main (cwd today : String) (uniprot : Option String)
    (ic50_cutoff : Option PyFloat) (smiles : Option String)
    (similarity_cutoff : Option PyFloat) (transcoded : XVal) : Effects :=
  if truthyStr uniprot && truthyFloat ic50_cutoff then
    effectsOf (get_ligands_by_uniprot_run cwd today (uniprot.getD "")
      (ic50_cutoff.getD (.ofInt 0)) transcoded)
  else if truthyStr smiles && truthyFloat similarity_cutoff then
    effectsOf (get_target_by_compound_run cwd today (smiles.getD "")
      (similarity_cutoff.getD (.ofInt 0)) transcoded)
  else
    ⟨[], [], [], .success⟩

/-- Whether `needle` occurs as a contiguous run inside `hay` (both as char
lists). -/
def listIsPrefixOfB : List Char → List Char → Bool
  | [], _ => true
  | _ :: _, [] => false
  | a :: as, b :: bs => a == b && listIsPrefixOfB as bs

/-- Substring test used to state "the message contains the path". -/
def strContains (hay needle : String) : Bool :=
  go needle.data hay.data
where
  go (nd : List Char) : List Char → Bool
    | [] => listIsPrefixOfB nd []
    | c :: rest => listIsPrefixOfB nd (c :: rest) || go nd rest

/-- Test fixture: one transcoded target-search affinity record — a mapping
with keys `bdb:smiles`, `bdb:affinity_type`, `bdb:affinity` (document order)
holding the given text values. -/
def ligandRecordDict (r : String × String × String) : XVal :=
  .dict [("bdb:smiles", .text r.1), ("bdb:affinity_type", .text r.2.1),
    ("bdb:affinity", .text r.2.2)]

/-- One compound-search affinity record's six text fields. -/
structure TargetRec where
  target : String
  species : String
  smiles : String
  tanimoto : String
  affinity_type : String
  affinity : String
deriving DecidableEq

/-- Test fixture: one transcoded compound-search affinity record. -/
def targetRecordDict (t : TargetRec) : XVal :=
  .dict [("bdb:target", .text t.target), ("bdb:species", .text t.species),
    ("bdb:smiles", .text t.smiles), ("bdb:tanimoto", .text t.tanimoto),
    ("bdb:affinity_type", .text t.affinity_type), ("bdb:affinity", .text t.affinity)]

/-- Test fixture: a whole transcoded target-search response carrying the given
records as a list under the fixed path. -/
def ligandsResponseOf (rs : List (String × String × String)) : XVal :=
  .dict [("html", .dict [("body", .dict [("bdb:getligandsbyuniprotresponse",
    .dict [("bdb:affinities", .list (rs.map ligandRecordDict))])])])]

/-- Test fixture: a whole transcoded compound-search response carrying the
given records as a list under the fixed path. -/
def targetsResponseOf (ts : List TargetRec) : XVal :=
  .dict [("html", .dict [("body", .dict [("bdb:gettargetbycompoundresponse",
    .dict [("bdb:affinities", .list (ts.map targetRecordDict))])])])]

theorem ligandRow_record (r : String × String × String) :
    ligandRow (ligandRecordDict r) = .ok [r.1, r.2.1, r.2.2] := rfl

theorem targetRow_record (t : TargetRec) :
    targetRow (targetRecordDict t) =
      .ok [t.target ++ " [" ++ t.species ++ "]",
        t.smiles ++ " (" ++ t.tanimoto ++ ")", t.affinity_type, t.affinity] := rfl

theorem emitLoop_ligand_map (rs : List (String × String × String)) :
    emitLoop ligandRow (rs.map ligandRecordDict) =
      (rs.map (fun r => [r.1, r.2.1, r.2.2]), none) := by
  induction rs with
  | nil => rfl
  | cons r rs ih => simp [emitLoop, ligandRow_record, ih]

theorem emitLoop_target_map (ts : List TargetRec) :
    emitLoop targetRow (ts.map targetRecordDict) =
      (ts.map (fun t => [t.target ++ " [" ++ t.species ++ "]",
        t.smiles ++ " (" ++ t.tanimoto ++ ")", t.affinity_type, t.affinity]), none) := by
  induction ts with
  | nil => rfl
  | cons t ts ih => simp [emitLoop, targetRow_record, ih]

theorem strData_append (a b : String) : (a ++ b).data = a.data ++ b.data := rfl

/-- The two request builders can never produce the same URL: the fixed
literal prefixes already differ at character 51 (`L` versus `T`). -/
theorem ligand_url_ne_target_url (u s : String) (c sc : PyFloat) :
    get_ligands_by_uniprot_url u c ≠ get_target_by_compound_url s sc := by
  intro h
  have h2 : (get_ligands_by_uniprot_url u c).data[51]? =
      (get_target_by_compound_url s sc).data[51]? := by rw [h]
  rw [get_ligands_by_uniprot_url, get_target_by_compound_url] at h2
  rw [strData_append, strData_append, strData_append, strData_append,
    strData_append, strData_append] at h2
  rw [List.append_assoc, List.append_assoc, List.append_assoc,
    List.append_assoc] at h2
  rw [List.getElem?_append_left (by decide),
    List.getElem?_append_left (by decide)] at h2
  exact absurd h2 (by decide)

theorem effectsOf_httpRequests (p : PipeResult) : (effectsOf p).httpRequests = [p.url] := by
  cases h : p.ret <;> simp [effectsOf, h]

theorem effectsOf_fileWrites (p : PipeResult) :
    (effectsOf p).fileWrites = [(p.fileName, p.fileRows)] := by
  cases h : p.ret <;> simp [effectsOf, h]

/-- C1 (counterexample): at the integral cutoff input 100 — which the CLI
parses as the float `100.0` — the built URL ends in `;100.0`, not in `;100`
as the claim's plain-decimal-formatting requirement demands. -/
theorem c1_counterexample :
    get_ligands_by_uniprot_url "P35355" (PyFloat.ofInt 100) =
      "https://bindingdb.org/axis2/services/BDBService/getLigandsByUniprot?uniprot=P35355;100.0"
    ∧ get_ligands_by_uniprot_url "P35355" (PyFloat.ofInt 100) ≠
      "https://bindingdb.org/axis2/services/BDBService/getLigandsByUniprot?uniprot=P35355;100" := by
  exact ⟨by decide, by decide⟩

/-- C1 (amended, proved): for every uniprotId and ic50Cutoff the target-search
request builder produces exactly
`https://bindingdb.org/axis2/services/BDBService/getLigandsByUniprot?uniprot={uniprotId};{ic50Cutoff}`
with a semicolon separator, the cutoff rendered by CPython's default
float-to-string conversion — which renders an integral cutoff with a trailing
`.0` (`100.0`, not `100`). -/
theorem c1_target_url_template (uniprot : String) (c : PyFloat) (n : Int)
    (h : n.natAbs < 10 ^ 16) :
    get_ligands_by_uniprot_url uniprot c =
      "https://bindingdb.org/axis2/services/BDBService/getLigandsByUniprot?uniprot=" ++
        uniprot ++ ";" ++ c.str
    ∧ (PyFloat.ofInt n).str = toString n ++ ".0" :=
  ⟨rfl, rfl⟩

theorem c1_target_url_template_witness :
    (100 : Int).natAbs < 10 ^ 16
    ∧ (get_ligands_by_uniprot_url "P35355" (PyFloat.ofInt 100) =
        "https://bindingdb.org/axis2/services/BDBService/getLigandsByUniprot?uniprot=" ++
          "P35355" ++ ";" ++ (PyFloat.ofInt 100).str
      ∧ (PyFloat.ofInt 100).str = toString (100 : Int) ++ ".0") :=
  ⟨by decide, c1_target_url_template "P35355" (PyFloat.ofInt 100) 100 (by decide)⟩

/-- C2 (confirmed): for every smiles string and similarityCutoff the
compound-search request builder produces
`https://bindingdb.org/axis2/services/BDBService/getTargetByCompound?smiles={urlEncode(smiles)}&cutoff={similarityCutoff}`,
where the smiles parameter goes through `urllib.parse.quote` percent-encoding
(space becomes `%20`, `#` becomes `%23`) and the cutoff is appended
unencoded. -/
theorem c2_compound_url_encoding (smiles : String) (similarity_cutoff : PyFloat) :
    get_target_by_compound_url smiles similarity_cutoff =
      "https://bindingdb.org/axis2/services/BDBService/getTargetByCompound?smiles=" ++
        pyQuote smiles ++ "&cutoff=" ++ similarity_cutoff.str
    ∧ pyQuote " " = "%20" ∧ pyQuote "#" = "%23" :=
  ⟨rfl, by decide, by decide⟩

/-- C6 (confirmed): the output filename is a deterministic function of the
date string and the query parameters only — `{YYMMDD}_{uniprot}_{ic50Cutoff}nM.csv`
for target search and `{YYMMDD}_targetSearchByCpd_{similarityCutoff}nM.csv`
for compound search, opened relative to the current working directory — and
does not depend on the working directory or on the response, so same-day
invocations with identical parameters write the identical filename. -/
theorem c6_filename_deterministic (cwd cwd' today u s : String) (c sc : PyFloat)
    (d d' : XVal) :
    (get_ligands_by_uniprot_run cwd today u c d).fileName =
      today ++ "_" ++ u ++ "_" ++ c.str ++ "nM.csv"
    ∧ (get_target_by_compound_run cwd today s sc d).fileName =
      today ++ "_targetSearchByCpd_" ++ sc.str ++ "nM.csv"
    ∧ (get_ligands_by_uniprot_run cwd today u c d).fileName =
      (get_ligands_by_uniprot_run cwd' today u c d').fileName
    ∧ (get_target_by_compound_run cwd today s sc d).fileName =
      (get_target_by_compound_run cwd' today s sc d').fileName :=
  ⟨rfl, rfl, rfl, rfl⟩

/-- Demo target-search records used to instantiate hypotheses. -/
def rsDemo : List (String × String × String) :=
  [("CCO", "IC50", "100"), ("c1ccccc1", "Ki", "<10")]

/-- Demo compound-search records used to instantiate hypotheses. -/
def tsDemo : List TargetRec :=
  [⟨"Cyclooxygenase-2", "Homo sapiens", "CC(=O)Oc1ccccc1C(=O)O", "0.9", "IC50", "120"⟩]

/-- C3 (confirmed): when the transcoded mapping carries a list of N affinity
records at the fixed path, the emitted CSV consists of exactly the fixed
header row followed by one row per record — N+1 rows — with the columns in
the documented order and every field copied verbatim from the record. -/
theorem c3_csv_rows (d e : XVal) (rs : List (String × String × String))
    (ts : List TargetRec)
    (hd : navigate d ligandPath = .ok (.list (rs.map ligandRecordDict)))
    (he : navigate e targetPath = .ok (.list (ts.map targetRecordDict))) :
    get_ligands_by_uniprot_emit d =
      (ligandHeader :: rs.map (fun r => [r.1, r.2.1, r.2.2]), none)
    ∧ (get_ligands_by_uniprot_emit d).1.length = rs.length + 1
    ∧ get_target_by_compound_emit e =
      (targetHeader :: ts.map (fun t => [t.target ++ " [" ++ t.species ++ "]",
        t.smiles ++ " (" ++ t.tanimoto ++ ")", t.affinity_type, t.affinity]), none)
    ∧ (get_target_by_compound_emit e).1.length = ts.length + 1 := by
  have h1 : get_ligands_by_uniprot_emit d =
      (ligandHeader :: rs.map (fun r => [r.1, r.2.1, r.2.2]), none) := by
    rw [get_ligands_by_uniprot_emit, hd]
    simp [pyIterE, emitLoop_ligand_map]
  have h2 : get_target_by_compound_emit e =
      (targetHeader :: ts.map (fun t => [t.target ++ " [" ++ t.species ++ "]",
        t.smiles ++ " (" ++ t.tanimoto ++ ")", t.affinity_type, t.affinity]), none) := by
    rw [get_target_by_compound_emit, he]
    simp [pyIterE, emitLoop_target_map]
  refine ⟨h1, ?_, h2, ?_⟩
  · rw [h1]; simp
  · rw [h2]; simp

theorem c3_csv_rows_witness :
    (navigate (ligandsResponseOf rsDemo) ligandPath =
        .ok (.list (rsDemo.map ligandRecordDict))
      ∧ navigate (targetsResponseOf tsDemo) targetPath =
        .ok (.list (tsDemo.map targetRecordDict)))
    ∧ (get_ligands_by_uniprot_emit (ligandsResponseOf rsDemo) =
        (ligandHeader :: rsDemo.map (fun r => [r.1, r.2.1, r.2.2]), none)
      ∧ (get_ligands_by_uniprot_emit (ligandsResponseOf rsDemo)).1.length =
        rsDemo.length + 1
      ∧ get_target_by_compound_emit (targetsResponseOf tsDemo) =
        (targetHeader :: tsDemo.map (fun t => [t.target ++ " [" ++ t.species ++ "]",
          t.smiles ++ " (" ++ t.tanimoto ++ ")", t.affinity_type, t.affinity]), none)
      ∧ (get_target_by_compound_emit (targetsResponseOf tsDemo)).1.length =
        tsDemo.length + 1) :=
  ⟨⟨rfl, rfl⟩,
    c3_csv_rows (ligandsResponseOf rsDemo) (targetsResponseOf tsDemo) rsDemo tsDemo rfl rfl⟩

/-- Test fixture: a transcoded target-search response whose single affinity
record sits directly (as a mapping, not a one-element list) under the fixed
path — the shape `xmltodict` produces when the XML carries exactly one
`bdb:affinities` element. -/
def ligandsResponseSingle (r : String × String × String) : XVal :=
  .dict [("html", .dict [("body", .dict [("bdb:getligandsbyuniprotresponse",
    .dict [("bdb:affinities", ligandRecordDict r)])])])]

/-- Test fixture: single-record compound-search response, same shape. -/
def targetsResponseSingle (t : TargetRec) : XVal :=
  .dict [("html", .dict [("body", .dict [("bdb:gettargetbycompoundresponse",
    .dict [("bdb:affinities", targetRecordDict t)])])])]

/-- C10 (confirmed): when the fixed path holds a single record mapping rather
than a list, the `for` loop iterates over the mapping's KEYS; subscribing the
first key (a string) with a field name raises a `TypeError`, so the run fails
having written the header row only — no data row is emitted for the
record. -/
theorem c10_single_record_fails (d e : XVal) (r : String × String × String)
    (t : TargetRec)
    (hd : navigate d ligandPath = .ok (ligandRecordDict r))
    (he : navigate e targetPath = .ok (targetRecordDict t)) :
    get_ligands_by_uniprot_emit d =
      ([ligandHeader], some "TypeError: string indices must be integers")
    ∧ get_target_by_compound_emit e =
      ([targetHeader], some "TypeError: string indices must be integers") := by
  constructor
  · rw [get_ligands_by_uniprot_emit, hd]; rfl
  · rw [get_target_by_compound_emit, he]; rfl

theorem c10_single_record_fails_witness :
    (navigate (ligandsResponseSingle ("CCO", "IC50", "100")) ligandPath =
        .ok (ligandRecordDict ("CCO", "IC50", "100"))
      ∧ navigate (targetsResponseSingle ⟨"COX-2", "Homo sapiens", "CCO", "0.9", "IC50", "12"⟩)
          targetPath =
        .ok (targetRecordDict ⟨"COX-2", "Homo sapiens", "CCO", "0.9", "IC50", "12"⟩))
    ∧ (get_ligands_by_uniprot_emit (ligandsResponseSingle ("CCO", "IC50", "100")) =
        ([ligandHeader], some "TypeError: string indices must be integers")
      ∧ get_target_by_compound_emit
          (targetsResponseSingle ⟨"COX-2", "Homo sapiens", "CCO", "0.9", "IC50", "12"⟩) =
        ([targetHeader], some "TypeError: string indices must be integers")) :=
  ⟨⟨rfl, rfl⟩,
    c10_single_record_fails _ _ ("CCO", "IC50", "100")
      ⟨"COX-2", "Homo sapiens", "CCO", "0.9", "IC50", "12"⟩ rfl rfl⟩

/-- C4 (confirmed): when neither parameter pair is fully supplied, `main`
falls through both branches: no HTTP request, no file write, nothing printed,
normal exit. -/
theorem c4_no_mode_noop (cwd today : String) (uniprot smiles : Option String)
    (ic50_cutoff similarity_cutoff : Option PyFloat) (d : XVal)
    (h1 : uniprot = none ∨ ic50_cutoff = none)
    (h2 : smiles = none ∨ similarity_cutoff = none) :
    bindingdb_main cwd today uniprot ic50_cutoff smiles similarity_cutoff d =
      ⟨[], [], [], .success⟩ := by
  have hc1 : (truthyStr uniprot && truthyFloat ic50_cutoff) = false := by
    rcases h1 with h | h <;> subst h <;> simp [truthyStr, truthyFloat]
  have hc2 : (truthyStr smiles && truthyFloat similarity_cutoff) = false := by
    rcases h2 with h | h <;> subst h <;> simp [truthyStr, truthyFloat]
  simp [bindingdb_main, hc1, hc2]

theorem c4_no_mode_noop_witness :
    ((none : Option String) = none ∨ (none : Option PyFloat) = none)
    ∧ ((none : Option String) = none ∨ (none : Option PyFloat) = none)
    ∧ bindingdb_main "/work" "251012" none none none none (XVal.dict []) =
      ⟨[], [], [], .success⟩ :=
  ⟨Or.inl rfl, Or.inl rfl,
    c4_no_mode_noop "/work" "251012" none none none none (XVal.dict [])
      (Or.inl rfl) (Or.inl rfl)⟩

/-- C5 (confirmed): when the transcoded mapping lacks an element of the fixed
navigation path, the branch that runs raises while navigating; `main` has no
handler, so the exception propagates as an uncaught fatal error (non-zero
process exit, nothing printed) in either query variant. -/
theorem c5_missing_path_fatal (cwd today u s : String) (c sc : PyFloat) (d : XVal)
    (hu : u.isEmpty = false) (hc : c.truthy = true)
    (hs : s.isEmpty = false) (hsc : sc.truthy = true)
    (hd1 : navOk d ligandPath = false) (hd2 : navOk d targetPath = false) :
    ((bindingdb_main cwd today (some u) (some c) none none d).exit.isFatal = true
      ∧ (bindingdb_main cwd today (some u) (some c) none none d).stdout = [])
    ∧ ((bindingdb_main cwd today none none (some s) (some sc) d).exit.isFatal = true
      ∧ (bindingdb_main cwd today none none (some s) (some sc) d).stdout = []) := by
  have hl : ∃ e1, navigate d ligandPath = .error e1 := by
    cases hnav : navigate d ligandPath with
    | ok v => simp [navOk, hnav] at hd1
    | error e1 => exact ⟨e1, rfl⟩
  have ht : ∃ e2, navigate d targetPath = .error e2 := by
    cases hnav : navigate d targetPath with
    | ok v => simp [navOk, hnav] at hd2
    | error e2 => exact ⟨e2, rfl⟩
  obtain ⟨e1, he1⟩ := hl
  obtain ⟨e2, he2⟩ := ht
  constructor
  · have hmain : bindingdb_main cwd today (some u) (some c) none none d =
        effectsOf (get_ligands_by_uniprot_run cwd today u c d) := by
      simp [bindingdb_main, truthyStr, truthyFloat, hu, hc]
    have hemit : get_ligands_by_uniprot_emit d = ([ligandHeader], some e1) := by
      rw [get_ligands_by_uniprot_emit, he1]
    rw [hmain]
    simp [effectsOf, get_ligands_by_uniprot_run, hemit, PExit.isFatal]
  · have hmain : bindingdb_main cwd today none none (some s) (some sc) d =
        effectsOf (get_target_by_compound_run cwd today s sc d) := by
      simp [bindingdb_main, truthyStr, truthyFloat, hs, hsc]
    have hemit : get_target_by_compound_emit d = ([targetHeader], some e2) := by
      rw [get_target_by_compound_emit, he2]
    rw [hmain]
    simp [effectsOf, get_target_by_compound_run, hemit, PExit.isFatal]

theorem c5_missing_path_fatal_witness :
    ("P35355".isEmpty = false ∧ (PyFloat.ofInt 100).truthy = true
      ∧ "CCO".isEmpty = false ∧ (PyFloat.ofDigits false 0 "85").truthy = true
      ∧ navOk (XVal.dict []) ligandPath = false
      ∧ navOk (XVal.dict []) targetPath = false)
    ∧ (((bindingdb_main "/work" "251012" (some "P35355") (some (PyFloat.ofInt 100))
          none none (XVal.dict [])).exit.isFatal = true
      ∧ (bindingdb_main "/work" "251012" (some "P35355") (some (PyFloat.ofInt 100))
          none none (XVal.dict [])).stdout = [])
    ∧ ((bindingdb_main "/work" "251012" none none (some "CCO")
          (some (PyFloat.ofDigits false 0 "85")) (XVal.dict [])).exit.isFatal = true
      ∧ (bindingdb_main "/work" "251012" none none (some "CCO")
          (some (PyFloat.ofDigits false 0 "85")) (XVal.dict [])).stdout = [])) :=
  ⟨⟨rfl, rfl, rfl, rfl, rfl, rfl⟩,
    c5_missing_path_fatal "/work" "251012" "P35355" "CCO" (PyFloat.ofInt 100)
      (PyFloat.ofDigits false 0 "85") (XVal.dict []) rfl rfl rfl rfl rfl rfl⟩

/-- C8 (counterexample): both a protein identifier and an affinity cutoff are
supplied (`--uniprot P35355 --ic50_cutoff 0`), yet the target-search branch is
NOT entered: the dispatch tests CPython truthiness and the float `0.0` is
falsy, so the invocation issues no request, writes nothing and prints
nothing, refuting the claim as stated. -/
theorem c8_counterexample :
    bindingdb_main "/work" "251012" (some "P35355") (some (PyFloat.ofInt 0)) none none
      (ligandsResponseOf rsDemo) = ⟨[], [], [], .success⟩ := by
  rfl

/-- C8 (amended, proved): whenever the protein identifier and the affinity
cutoff are supplied with truthy values (nonempty identifier, nonzero cutoff),
the target-search branch is entered regardless of the compound parameters —
exactly the target-search pipeline runs, its request is issued, and, when the
transcoded response navigates cleanly, the confirmation message is printed. -/
theorem c8_target_dispatch (cwd today u : String) (c : PyFloat)
    (smiles : Option String) (similarity_cutoff : Option PyFloat) (d : XVal)
    (hu : u.isEmpty = false) (hc : c.truthy = true) :
    bindingdb_main cwd today (some u) (some c) smiles similarity_cutoff d =
      effectsOf (get_ligands_by_uniprot_run cwd today u c d)
    ∧ (bindingdb_main cwd today (some u) (some c) smiles similarity_cutoff d).httpRequests =
      [get_ligands_by_uniprot_url u c]
    ∧ ((get_ligands_by_uniprot_emit d).2 = none →
        (bindingdb_main cwd today (some u) (some c) smiles similarity_cutoff d).stdout =
          ["Results have been saved to " ++
            parentAbsolute cwd (today ++ "_" ++ u ++ "_" ++ c.str ++ "nM.csv") ++
            "/" ++ (today ++ "_" ++ u ++ "_" ++ c.str ++ "nM.csv") ++ "!"]) := by
  have hmain : bindingdb_main cwd today (some u) (some c) smiles similarity_cutoff d =
      effectsOf (get_ligands_by_uniprot_run cwd today u c d) := by
    simp [bindingdb_main, truthyStr, truthyFloat, hu, hc]
  refine ⟨hmain, ?_, ?_⟩
  · rw [hmain, effectsOf_httpRequests]
    exact rfl
  · intro hnone
    have hret : (get_ligands_by_uniprot_run cwd today u c d).ret =
        .ok ("Results have been saved to " ++
          parentAbsolute cwd (today ++ "_" ++ u ++ "_" ++ c.str ++ "nM.csv") ++
          "/" ++ (today ++ "_" ++ u ++ "_" ++ c.str ++ "nM.csv") ++ "!") := by
      simp [get_ligands_by_uniprot_run, hnone]
    rw [hmain]
    simp [effectsOf, hret]

theorem c8_target_dispatch_witness :
    ("P35355".isEmpty = false ∧ (PyFloat.ofInt 100).truthy = true)
    ∧ (bindingdb_main "/work" "251012" (some "P35355") (some (PyFloat.ofInt 100))
        none none (ligandsResponseOf rsDemo) =
        effectsOf (get_ligands_by_uniprot_run "/work" "251012" "P35355"
          (PyFloat.ofInt 100) (ligandsResponseOf rsDemo))
      ∧ (bindingdb_main "/work" "251012" (some "P35355") (some (PyFloat.ofInt 100))
          none none (ligandsResponseOf rsDemo)).httpRequests =
        [get_ligands_by_uniprot_url "P35355" (PyFloat.ofInt 100)]
      ∧ ((get_ligands_by_uniprot_emit (ligandsResponseOf rsDemo)).2 = none →
          (bindingdb_main "/work" "251012" (some "P35355") (some (PyFloat.ofInt 100))
            none none (ligandsResponseOf rsDemo)).stdout =
          ["Results have been saved to " ++
            parentAbsolute "/work" ("251012" ++ "_" ++ "P35355" ++ "_" ++
              (PyFloat.ofInt 100).str ++ "nM.csv") ++
            "/" ++ ("251012" ++ "_" ++ "P35355" ++ "_" ++ (PyFloat.ofInt 100).str ++
              "nM.csv") ++ "!"])) :=
  ⟨⟨rfl, rfl⟩,
    c8_target_dispatch "/work" "251012" "P35355" (PyFloat.ofInt 100) none none
      (ligandsResponseOf rsDemo) rfl rfl⟩

/-- C9 (confirmed): when all four parameters are supplied with truthy values,
the target-search branch runs and the compound-search variant is never
invoked — the only request issued is the target-search URL, and the
compound-search URL (which can never coincide with it) is not requested. -/
theorem c9_target_precedence (cwd today u s : String) (c sc : PyFloat) (d : XVal)
    (hu : u.isEmpty = false) (hc : c.truthy = true)
    (hs : s.isEmpty = false) (hsc : sc.truthy = true) :
    bindingdb_main cwd today (some u) (some c) (some s) (some sc) d =
      effectsOf (get_ligands_by_uniprot_run cwd today u c d)
    ∧ (bindingdb_main cwd today (some u) (some c) (some s) (some sc) d).httpRequests =
      [get_ligands_by_uniprot_url u c]
    ∧ get_target_by_compound_url s sc ∉
      (bindingdb_main cwd today (some u) (some c) (some s) (some sc) d).httpRequests := by
  have hmain : bindingdb_main cwd today (some u) (some c) (some s) (some sc) d =
      effectsOf (get_ligands_by_uniprot_run cwd today u c d) := by
    simp [bindingdb_main, truthyStr, truthyFloat, hu, hc]
  have hreq : (bindingdb_main cwd today (some u) (some c) (some s) (some sc) d).httpRequests =
      [get_ligands_by_uniprot_url u c] := by
    rw [hmain, effectsOf_httpRequests]
    exact rfl
  refine ⟨hmain, hreq, ?_⟩
  rw [hreq]
  simp only [List.mem_singleton]
  exact fun h => ligand_url_ne_target_url u s c sc h.symm

theorem c9_target_precedence_witness :
    ("P35355".isEmpty = false ∧ (PyFloat.ofInt 100).truthy = true
      ∧ "CCO".isEmpty = false ∧ (PyFloat.ofDigits false 0 "85").truthy = true)
    ∧ (bindingdb_main "/work" "251012" (some "P35355") (some (PyFloat.ofInt 100))
        (some "CCO") (some (PyFloat.ofDigits false 0 "85")) (ligandsResponseOf rsDemo) =
        effectsOf (get_ligands_by_uniprot_run "/work" "251012" "P35355"
          (PyFloat.ofInt 100) (ligandsResponseOf rsDemo))
      ∧ (bindingdb_main "/work" "251012" (some "P35355") (some (PyFloat.ofInt 100))
          (some "CCO") (some (PyFloat.ofDigits false 0 "85"))
          (ligandsResponseOf rsDemo)).httpRequests =
        [get_ligands_by_uniprot_url "P35355" (PyFloat.ofInt 100)]
      ∧ get_target_by_compound_url "CCO" (PyFloat.ofDigits false 0 "85") ∉
        (bindingdb_main "/work" "251012" (some "P35355") (some (PyFloat.ofInt 100))
          (some "CCO") (some (PyFloat.ofDigits false 0 "85"))
          (ligandsResponseOf rsDemo)).httpRequests) :=
  ⟨⟨rfl, rfl, rfl, rfl⟩,
    c9_target_precedence "/work" "251012" "P35355" "CCO" (PyFloat.ofInt 100)
      (PyFloat.ofDigits false 0 "85") (ligandsResponseOf rsDemo) rfl rfl rfl rfl⟩

/-- C7 (code bug, evaluated): a successful compound-search run whose SMILES
contains `/` (here `F/C=C/F`, similarity cutoff 0.85, cwd `/work`): the run
succeeds and writes `251012_targetSearchByCpd_0.85nM.csv`, but the printed
confirmation names `/work/251012_F/C=C/251012_targetSearchByCpd_0.85nM.csv`
— the directory part comes from a SMILES-based file name that was never
written — and the absolute path of the file actually written,
`/work/251012_targetSearchByCpd_0.85nM.csv`, occurs nowhere in the printed
line. -/
theorem c7_confirmation_wrong_path :
    (bindingdb_main "/work" "251012" none none (some "F/C=C/F")
        (some (PyFloat.ofDigits false 0 "85")) (targetsResponseOf tsDemo)).exit =
      .success
    ∧ (bindingdb_main "/work" "251012" none none (some "F/C=C/F")
        (some (PyFloat.ofDigits false 0 "85")) (targetsResponseOf tsDemo)).fileWrites.map
          Prod.fst =
      ["251012_targetSearchByCpd_0.85nM.csv"]
    ∧ (bindingdb_main "/work" "251012" none none (some "F/C=C/F")
        (some (PyFloat.ofDigits false 0 "85")) (targetsResponseOf tsDemo)).stdout =
      ["Results have been saved to /work/251012_F/C=C/251012_targetSearchByCpd_0.85nM.csv!"]
    ∧ strContains
        "Results have been saved to /work/251012_F/C=C/251012_targetSearchByCpd_0.85nM.csv!"
        ("/work" ++ "/" ++ "251012_targetSearchByCpd_0.85nM.csv") = false := by
  exact ⟨by decide, by decide, by decide, by decide⟩
